import Mathlib

/-!
Shallow embedding of the simulation and alarm/condition engine of the
SampleServer-node-opcua repository, together with the user-lookup logic
of src/user.ts, and theorems settling the specification claims.

Numeric values (JavaScript numbers stepped by integer amounts) are
modelled as Int; timestamps (new Date() at tick time) are modelled as a
Nat supplied to the tick function; LocalizedText values are modelled by
their text.
-/

namespace SampleServer

/-! ## Variable Store: the MySeverity write handler

The MySeverity variable shares the closure variable `count` with the
wrapping event counter.  Its value.set handler is:
if (variant.value > 1000 || variant.value < 100) return BadOutOfRange
else \x7b count = variant.value; return Good \x7d -/

inductive StatusCode where
  | Good
  | BadOutOfRange
deriving DecidableEq

def mySeverity_set (count w : Int) : StatusCode × Int :=
  if w > 1000 ∨ w < 100 then (StatusCode.BadOutOfRange, count)
  else (StatusCode.Good, w)

/-! ## Wrapping event counter

let count = 100; every 60 s: count = count + 50; if (count > 1000) count = 100.
The post-tick value is also raised as the severity of a DemoEventType event. -/

def countInit : Int := 100

def countTick (c : Int) : Int :=
  let c1 := c + 50
  if c1 > 1000 then 100 else c1

def countAfter : Nat → Int
  | 0 => countInit
  | n + 1 => countTick (countAfter n)

/-! ## Bidirectional ramp myValue / MyVar

let myValue = 25; every 1 s: myValue += 1; if (myValue >= 60) myValue = -25.
MyVar exposes myValue through a computed value.get only: the repository
code supplies no value.set for it. -/

def myValueInit : Int := 25

def myValueTick (v : Int) : Int :=
  let v1 := v + 1
  if v1 ≥ 60 then -25 else v1

/-- Which accessors the repository code passes in the value descriptor of
a variable: a computed getter (value.get) and a custom setter (value.set). -/
structure ValueAccess where
  computedGet : Bool
  customSet : Bool
deriving DecidableEq

def mySeverityAccess : ValueAccess := { computedGet := true, customSet := true }

def myVarAccess : ValueAccess := { computedGet := true, customSet := false }

def feedOverrideAccess : ValueAccess := { computedGet := false, customSet := false }

/-- Modelled from the spec: whether external readers see a stored,
externally-writable value.  The store-level write path applies to
variables without a computed getter; a variable with a computed getter
and no backing store is read-only for external writers.  (The library
code implementing external writes is not part of this repository.) -/
def storedExternallyWritable (a : ValueAccess) : Bool := !a.computedGet

/-! ## Condition state machine MyCondition

Created with severity 150, message "MyCondition is Good!", retain true,
time = now.  Every 15 s the tick branches on the current message text:
good text: severity := 800, message := bad text, time := now;
otherwise:  severity := 150, message := good text, time := now. -/

structure Condition where
  severity : Nat
  message : String
  retain : Bool
  time : Nat
deriving DecidableEq

def goodText : String := "MyCondition is Good!"

def badText : String := "MyCondition is Bad!"

def condInit : Condition :=
  { severity := 150, message := goodText, retain := true, time := 0 }

def condTick (now : Nat) (c : Condition) : Condition :=
  if c.message = goodText then
    { c with severity := 800, message := badText, time := now }
  else
    { c with severity := 150, message := goodText, time := now }

/-- The logical Good state of the condition, as the code itself decides it:
the message equals the good text. -/
def Condition.isGood (c : Condition) : Bool := c.message = goodText

/-- State after n ticks, the k-th tick carrying timestamp k. -/
def condAfter : Nat → Condition
  | 0 => condInit
  | n + 1 => condTick (n + 1) (condAfter n)

/-! ## Limit alarm MyVarNonExclusiveLimitAlarm

Instantiated with highHighLimit 50, highLimit 40, lowLimit 20,
lowLowLimit -5; afterwards the code only sets retain to true. -/

structure AlarmLimits where
  lowLowLimit : Int
  lowLimit : Int
  highLimit : Int
  highHighLimit : Int
deriving DecidableEq

structure Alarm where
  limits : AlarmLimits
  retain : Bool
deriving DecidableEq

def alarmCreated (r0 : Bool) : Alarm :=
  { limits := { lowLowLimit := -5, lowLimit := 20, highLimit := 40, highHighLimit := 50 },
    retain := r0 }

def Alarm.setRetain (a : Alarm) (b : Bool) : Alarm := { a with retain := b }

/-- The alarm after the whole creation sequence in the source: instantiate
with the four limits (r0 is the library default of the retain flag, not
fixed by this repository), then set retain to true. -/
def alarmFinal (r0 : Bool) : Alarm := (alarmCreated r0).setRetain true

inductive Band where
  | LowLow
  | Low
  | Normal
  | High
  | HighHigh
deriving DecidableEq

/-- Modelled from the spec: the band classifier of the non-exclusive limit
alarm (its implementation lives in the external node-opcua library, not in
this repository): below lowlow gives LowLow; [lowlow, low) gives Low;
[low, high] gives Normal (inactive); (high, highhigh] gives High; above
highhigh gives HighHigh. -/
def classify (v : Int) (l : AlarmLimits) : Band :=
  if v < l.lowLowLimit then Band.LowLow
  else if v < l.lowLimit then Band.Low
  else if v ≤ l.highLimit then Band.Normal
  else if v ≤ l.highHighLimit then Band.High
  else Band.HighHigh

/-! ## Machine-tool tick handlers

Each of the three setInterval handlers of the machine-tool logic calls
addressSpace.findNode on every tick before writing.  The address-space
operations a tick performs are recorded as a list. -/

inductive OpcValue where
  | text (s : String)
  | num (n : Int)
  | nodeIdVal (n : Nat)
deriving DecidableEq

inductive ASOp where
  | resolve (id : Nat)
  | writeStored (id : Nat) (v : OpcValue)
deriving DecidableEq

/-- The CurrentState toggle (every 10 s): findNode on i=55188 and i=55190,
read the state text, then write "Ended"/2 or "Running"/1. -/
def currentStateTick (s : String) : List ASOp :=
  [ASOp.resolve 55188, ASOp.resolve 55190] ++
    (if s = "Running" then
      [ASOp.writeStored 55188 (OpcValue.text "Ended"),
       ASOp.writeStored 55190 (OpcValue.nodeIdVal 2)]
    else
      [ASOp.writeStored 55188 (OpcValue.text "Running"),
       ASOp.writeStored 55190 (OpcValue.nodeIdVal 1)])

/-- The MachineryItemState toggle (every 10 s): findNode on i=6011 and
i=6012, read the state text, then write accordingly. -/
def machineryItemStateTick (s : String) : List ASOp :=
  [ASOp.resolve 6011, ASOp.resolve 6012] ++
    (if s = "Executing" then
      [ASOp.writeStored 6011 (OpcValue.text "NotExecuting"),
       ASOp.writeStored 6012 (OpcValue.nodeIdVal 2)]
    else
      [ASOp.writeStored 6011 (OpcValue.text "Executing"),
       ASOp.writeStored 6012 (OpcValue.nodeIdVal 1)])

/-- The FeedOverride sawtooth step: override += 5; if (override > 120)
override = 50. -/
def overrideStep (v : Int) : Int :=
  let v1 := v + 5
  if v1 > 120 then 50 else v1

def overrideInit : Int := 50

/-- The FeedOverride handler (every 1 s): step the closure counter, then
findNode on i=55229 and write the new value into that stored variable. -/
def feedOverrideTick (v : Int) : Int × List ASOp :=
  let v1 := overrideStep v
  (v1, [ASOp.resolve 55229, ASOp.writeStored 55229 (OpcValue.num v1)])

/-- Number of findNode resolutions an operation list performs. -/
def resolvesIn (ops : List ASOp) : Nat :=
  (ops.filter (fun op => match op with
    | ASOp.resolve _ => true
    | _ => false)).length

/-! ## User lookup (src/user.ts) -/

structure User where
  username : String
  password : String
  roles : String
deriving DecidableEq

/-- getUser: filter the user list by username; with more than one match
return null, otherwise user[0] (undefined, hence none, when empty). -/
def getUser (username : String) (users : List User) : Option User :=
  let user := users.filter (fun item => item.username == username)
  if user.length > 1 then none
  else user.head?

/-- isValidUserAsync, with the bcrypt comparison abstracted as an oracle:
some b is a comparison that completed with result b, none is a comparison
that erred (its result is not the value true either way).  The returned
pair is the (err, isAuthorized) argument pair of the single callback
invocation; the code passes null for err on every path and checks
result === true. -/
def isValidUserAsync (compare : String → String → Option Bool)
    (username password : String) (users : List User) : Option Unit × Bool :=
  match getUser username users with
  | some user =>
      if compare password user.password = some true then (none, true)
      else (none, false)
  | none => (none, false)

/-! ## Helper lemmas -/

lemma condTick_isGood (now : Nat) (c : Condition) :
    (condTick now c).isGood = !c.isGood := by
  unfold condTick Condition.isGood
  by_cases h : c.message = goodText
  · rw [if_pos h]
    show decide (badText = goodText) = !decide (c.message = goodText)
    rw [h]
    decide
  · rw [if_neg h]
    show decide (goodText = goodText) = !decide (c.message = goodText)
    rw [decide_eq_false h]
    decide

lemma condTick_retain (now : Nat) (c : Condition) :
    (condTick now c).retain = c.retain := by
  unfold condTick
  split <;> rfl

lemma condTick_time (now : Nat) (c : Condition) :
    (condTick now c).time = now := by
  unfold condTick
  split <;> rfl

lemma condAfter_isGood (n : Nat) :
    (condAfter n).isGood = decide (n % 2 = 0) := by
  induction n with
  | zero => decide
  | succ n ih =>
    show (condTick (n + 1) (condAfter n)).isGood = _
    rw [condTick_isGood, ih]
    by_cases h : n % 2 = 0
    · have h1 : (n + 1) % 2 = 1 := by omega
      simp [h, h1]
    · have h0 : n % 2 = 1 := by omega
      have h1 : (n + 1) % 2 = 0 := by omega
      simp [h0, h1]

lemma countTick_eq (v : Int) :
    countTick v = if v + 50 > 1000 then 100 else v + 50 := rfl

lemma countTick_bounds (v : Int) (h : 100 ≤ v ∧ v ≤ 1000) :
    100 ≤ countTick v ∧ countTick v ≤ 1000 := by
  rw [countTick_eq]
  split <;> omega

lemma countAfter_bounds (n : Nat) :
    100 ≤ countAfter n ∧ countAfter n ≤ 1000 := by
  induction n with
  | zero => exact ⟨le_refl 100, by norm_num [countInit, countAfter]⟩
  | succ n ih => exact countTick_bounds (countAfter n) ih

/-! ## Claims -/

/-- C1: writes to the ranged variable MySeverity (declared range
[100, 1000]) are rejected with BadOutOfRange and leave the stored value
(the shared closure counter) unchanged when outside the range, and
succeed with Good, storing exactly the written value, when at or within
the range. -/
theorem C1_mySeverity_range (count w : Int) :
    (w < 100 ∨ 1000 < w →
      mySeverity_set count w = (StatusCode.BadOutOfRange, count)) ∧
    (100 ≤ w → w ≤ 1000 → mySeverity_set count w = (StatusCode.Good, w)) := by
  constructor
  · intro h
    unfold mySeverity_set
    rw [if_pos]
    rcases h with h | h
    · exact Or.inr h
    · exact Or.inl h
  · intro h1 h2
    unfold mySeverity_set
    rw [if_neg]
    push_neg
    omega

/-- Witness for C1 at the boundary and outside it. -/
theorem C1_witness :
    mySeverity_set 500 1001 = (StatusCode.BadOutOfRange, 500) ∧
    mySeverity_set 500 100 = (StatusCode.Good, 100) ∧
    mySeverity_set 500 1000 = (StatusCode.Good, 1000) :=
  ⟨(C1_mySeverity_range 500 1001).1 (Or.inr (by norm_num)),
   (C1_mySeverity_range 500 100).2 (by norm_num) (by norm_num),
   (C1_mySeverity_range 500 1000).2 (by norm_num) (by norm_num)⟩

/-- C2: starting from Good, the condition state after n ticks is Good
exactly when n is even (strict alternation); every tick flips the state
(on any reachable or unreachable condition record alike, since the tick
branches only on the message text); a tick from Good sets the high-band
severity 800, a tick from Bad restores the low-band severity 150, and
every tick refreshes the timestamp to the tick time. -/
theorem C2_alternation (n : Nat) (c : Condition) (now : Nat) :
    ((condAfter n).isGood = decide (n % 2 = 0)) ∧
    ((condTick now c).isGood = !c.isGood) ∧
    (c.isGood = true → (condTick now c).severity = 800) ∧
    (c.isGood = false → (condTick now c).severity = 150) ∧
    ((condTick now c).time = now) := by
  refine ⟨condAfter_isGood n, condTick_isGood now c, ?_, ?_, condTick_time now c⟩
  · intro h
    have hm : c.message = goodText := by
      have := of_decide_eq_true h
      exact this
    unfold condTick
    rw [if_pos hm]
  · intro h
    have hm : ¬ c.message = goodText := by
      intro hc
      rw [Condition.isGood, hc] at h
      simp at h
    unfold condTick
    rw [if_neg hm]

/-- Witness for C2 at concrete states: the initial condition is Good, one
tick makes it Bad with severity 800, a tick from the Bad state restores
severity 150, and the timestamp becomes the tick time. -/
theorem C2_witness :
    (condAfter 4).isGood = decide (4 % 2 = 0) ∧
    (condTick 7 condInit).severity = 800 ∧
    (condTick 9 (condAfter 1)).severity = 150 ∧
    (condTick 7 condInit).time = 7 :=
  ⟨(C2_alternation 4 condInit 7).1,
   (C2_alternation 4 condInit 7).2.2.1 (by decide),
   (C2_alternation 4 (condAfter 1) 9).2.2.2.1 (by decide),
   (C2_alternation 4 condInit 7).2.2.2.2⟩

/-- C3: the condition is created with the good text, severity 150, retain
true; after one tick the message is the bad text, severity 800, retain
still true and the timestamp updated; after a second tick the message and
severity revert, and retain is true after every number of ticks. -/
theorem C3_scenario :
    condInit = { severity := 150, message := goodText, retain := true, time := 0 } ∧
    condAfter 1 = { severity := 800, message := badText, retain := true, time := 1 } ∧
    condAfter 2 = { severity := 150, message := goodText, retain := true, time := 2 } ∧
    ∀ n, (condAfter n).retain = true := by
  refine ⟨rfl, by decide, by decide, ?_⟩
  intro n
  induction n with
  | zero => rfl
  | succ n ih => rw [condAfter, condTick_retain, ih]

/-- C4: the wrapping counter (step 50, floor 100, ceiling 1000) stays in
[100, 1000] after every tick from the initial value 100 and from any
in-range value (the shared counter can also be set through MySeverity
writes, which keep it in range); whenever the incremented result exceeds
1000 the tick stores exactly 100, otherwise it stores the incremented
value. -/
theorem C4_sawtooth (n : Nat) (v : Int) (hv : 100 ≤ v ∧ v ≤ 1000) :
    (100 ≤ countAfter n ∧ countAfter n ≤ 1000) ∧
    (100 ≤ countTick v ∧ countTick v ≤ 1000) ∧
    (1000 < v + 50 → countTick v = 100) ∧
    (v + 50 ≤ 1000 → countTick v = v + 50) := by
  refine ⟨countAfter_bounds n, countTick_bounds v hv, ?_, ?_⟩
  · intro h
    rw [countTick_eq, if_pos]
    omega
  · intro h
    rw [countTick_eq, if_neg]
    omega

/-- Witness for C4: after three ticks the counter is 250 and in range; a
tick at the ceiling wraps to exactly the floor; a tick at the floor adds
the step. -/
theorem C4_witness :
    (100 ≤ countAfter 3 ∧ countAfter 3 ≤ 1000) ∧
    countTick 1000 = 100 ∧
    countTick 100 = 150 :=
  ⟨(C4_sawtooth 3 1000 (by norm_num)).1,
   (C4_sawtooth 3 1000 (by norm_num)).2.2.1 (by norm_num),
   by
     have h := (C4_sawtooth 3 100 (by norm_num)).2.2.2 (by norm_num)
     rw [h]
     norm_num⟩

/-- C5: the limit alarm is created with the four fixed ordered thresholds
lowlow -5, low 20, high 40, highhigh 50; the only later mutation in the
source (setting retain) leaves the limits unchanged, whatever the library
default r0 of the retain flag; and the band classifier maps the inputs
-10, 0, 30, 45, 60 to LowLow, Low, Normal, High, HighHigh. -/
theorem C5_alarm_classification (r0 : Bool) :
    (alarmFinal r0).limits =
      { lowLowLimit := -5, lowLimit := 20, highLimit := 40, highHighLimit := 50 } ∧
    (alarmFinal r0).limits = (alarmCreated r0).limits ∧
    ((alarmFinal r0).limits.lowLowLimit ≤ (alarmFinal r0).limits.lowLimit ∧
     (alarmFinal r0).limits.lowLimit ≤ (alarmFinal r0).limits.highLimit ∧
     (alarmFinal r0).limits.highLimit ≤ (alarmFinal r0).limits.highHighLimit) ∧
    classify (-10) (alarmFinal r0).limits = Band.LowLow ∧
    classify 0 (alarmFinal r0).limits = Band.Low ∧
    classify 30 (alarmFinal r0).limits = Band.Normal ∧
    classify 45 (alarmFinal r0).limits = Band.High ∧
    classify 60 (alarmFinal r0).limits = Band.HighHigh := by
  have hl : (alarmFinal r0).limits =
      { lowLowLimit := -5, lowLimit := 20, highLimit := 40, highHighLimit := 50 } := rfl
  refine ⟨hl, rfl, ?_, ?_, ?_, ?_, ?_, ?_⟩ <;> rw [hl] <;> decide

/-- C6: the bidirectional ramp adds step 1 per tick and resets to the
negative floor -25 exactly when the result reaches or exceeds the bound
60; the MyVar variable exposing it has a computed getter and no setter in
the source, so it is not an externally-writable stored variable. -/
theorem C6_ramp (v : Int) :
    (v + 1 < 60 → myValueTick v = v + 1) ∧
    (60 ≤ v + 1 → myValueTick v = -25) ∧
    myValueInit = 25 ∧
    (-25 : Int) < 0 ∧
    myVarAccess = { computedGet := true, customSet := false } ∧
    storedExternallyWritable myVarAccess = false := by
  refine ⟨?_, ?_, rfl, by norm_num, rfl, rfl⟩
  · intro h
    show (if v + 1 ≥ 60 then (-25 : Int) else v + 1) = v + 1
    rw [if_neg]
    omega
  · intro h
    show (if v + 1 ≥ 60 then (-25 : Int) else v + 1) = -25
    rw [if_pos]
    omega

/-- Witness for C6 below and at the reset bound. -/
theorem C6_witness :
    myValueTick 30 = 31 ∧
    myValueTick 59 = -25 ∧
    storedExternallyWritable myVarAccess = false :=
  ⟨by
     have h := (C6_ramp 30).1 (by norm_num)
     rw [h]
     norm_num,
   (C6_ramp 59).2.1 (by norm_num),
   (C6_ramp 0).2.2.2.2.2⟩

/-- C7: the override generator adds step 5 per tick, resets to floor 50
exactly when the result exceeds the bound 120, and on every tick writes
the new value into the stored FeedOverride variable (node i=55229) after
resolving it; that variable has no computed getter in the source, so
external readers see a stored, externally-writable value. -/
theorem C7_feedOverride (v : Int) :
    (v + 5 ≤ 120 → feedOverrideTick v =
      (v + 5, [ASOp.resolve 55229, ASOp.writeStored 55229 (OpcValue.num (v + 5))])) ∧
    (120 < v + 5 → feedOverrideTick v =
      (50, [ASOp.resolve 55229, ASOp.writeStored 55229 (OpcValue.num 50)])) ∧
    overrideInit = 50 ∧
    feedOverrideAccess.computedGet = false ∧
    storedExternallyWritable feedOverrideAccess = true := by
  have hstep : ∀ w : Int, overrideStep w = if w + 5 > 120 then 50 else w + 5 :=
    fun _ => rfl
  refine ⟨?_, ?_, rfl, rfl, rfl⟩
  · intro h
    have hs : overrideStep v = v + 5 := by
      rw [hstep, if_neg]
      omega
    show (overrideStep v,
      [ASOp.resolve 55229, ASOp.writeStored 55229 (OpcValue.num (overrideStep v))]) = _
    rw [hs]
  · intro h
    have hs : overrideStep v = 50 := by
      rw [hstep, if_pos]
      omega
    show (overrideStep v,
      [ASOp.resolve 55229, ASOp.writeStored 55229 (OpcValue.num (overrideStep v))]) = _
    rw [hs]

/-- Witness for C7 at the initial value and at the reset bound. -/
theorem C7_witness :
    feedOverrideTick 50 =
      (55, [ASOp.resolve 55229, ASOp.writeStored 55229 (OpcValue.num 55)]) ∧
    feedOverrideTick 120 =
      (50, [ASOp.resolve 55229, ASOp.writeStored 55229 (OpcValue.num 50)]) := by
  constructor
  · have h := (C7_feedOverride 50).1 (by norm_num)
    rw [h]
    norm_num
  · exact (C7_feedOverride 120).2.1 (by norm_num)

/-- C8 counterexample: the claim that no periodic tick handler ever
re-resolves an identifier at runtime is false: the FeedOverride tick
handler, run at the initial counter value 50, performs a findNode
resolution of node i=55229 within the tick. -/
theorem C8_counterexample :
    ASOp.resolve 55229 ∈ (feedOverrideTick 50).2 := by decide

/-- C8 amended: handles of the DEV-namespace simulators are captured once
at startup, but each machine-tool periodic tick handler re-resolves its
node identifiers through the address-space accessor on every tick: the
CurrentState and MachineryItemState handlers perform exactly two findNode
resolutions per tick and the FeedOverride handler exactly one, whatever
the current state text or counter value. -/
theorem C8_per_tick_resolution (s : String) (v : Int) :
    resolvesIn (currentStateTick s) = 2 ∧
    resolvesIn (machineryItemStateTick s) = 2 ∧
    resolvesIn (feedOverrideTick v).2 = 1 := by
  refine ⟨?_, ?_, rfl⟩
  · unfold currentStateTick resolvesIn
    split <;> rfl
  · unfold machineryItemStateTick resolvesIn
    split <;> rfl

/-- C9: when two or more entries of the user list share the requested
username, getUser returns null, and isValidUserAsync therefore invokes
its callback with (null, false) whatever the supplied password and
whatever the bcrypt comparison would answer. -/
theorem C9_duplicate_users (username password : String) (users : List User)
    (compare : String → String → Option Bool)
    (h : 2 ≤ (users.filter (fun item => item.username == username)).length) :
    getUser username users = none ∧
    isValidUserAsync compare username password users = (none, false) := by
  have heq : getUser username users =
      if (users.filter (fun item => item.username == username)).length > 1 then none
      else (users.filter (fun item => item.username == username)).head? := rfl
  have hg : getUser username users = none := by
    rw [heq, if_pos]
    omega
  refine ⟨hg, ?_⟩
  unfold isValidUserAsync
  rw [hg]

/-- A user list with a duplicated username. -/
def dupUsers : List User :=
  [{ username := "alice", password := "pw1", roles := "admin" },
   { username := "alice", password := "pw2", roles := "operator" }]

/-- Witness for C9 on a concrete duplicated user list, with a comparison
oracle that would accept any password. -/
theorem C9_witness :
    getUser "alice" dupUsers = none ∧
    isValidUserAsync (fun _ _ => some true) "alice" "secret" dupUsers =
      (none, false) :=
  C9_duplicate_users "alice" "secret" dupUsers (fun _ _ => some true) (by decide)

/-- C10: for every input and every outcome of the bcrypt comparison
(success with either result, or an error, the latter leaving the result
argument distinct from true), isValidUserAsync invokes its callback with
a null first argument; moreover an unknown user is mapped to the
authorization result false, and so is a known user whose comparison does
not answer exactly true — never an error object. -/
theorem C10_err_null_and_reject (compare : String → String → Option Bool)
    (username password : String) (users : List User) :
    (isValidUserAsync compare username password users).1 = none ∧
    (getUser username users = none →
      isValidUserAsync compare username password users = (none, false)) ∧
    (∀ user, getUser username users = some user →
      compare password user.password ≠ some true →
      isValidUserAsync compare username password users = (none, false)) := by
  refine ⟨?_, ?_, ?_⟩
  · unfold isValidUserAsync
    cases hu : getUser username users with
    | none => rfl
    | some user =>
      dsimp only
      split <;> rfl
  · intro h
    unfold isValidUserAsync
    rw [h]
  · intro user hu hc
    unfold isValidUserAsync
    rw [hu]
    dsimp only
    rw [if_neg hc]

/-- A single-user list for the C10 witness. -/
def soloUsers : List User :=
  [{ username := "bob", password := "pw", roles := "admin" }]

/-- Witness for C10: an unknown user, an erred comparison and a false
comparison each yield (null, false). -/
theorem C10_witness :
    (isValidUserAsync (fun _ _ => some true) "carol" "x" soloUsers).1 = none ∧
    isValidUserAsync (fun _ _ => some true) "carol" "x" soloUsers = (none, false) ∧
    isValidUserAsync (fun _ _ => none) "bob" "x" soloUsers = (none, false) ∧
    isValidUserAsync (fun _ _ => some false) "bob" "x" soloUsers = (none, false) :=
  ⟨(C10_err_null_and_reject (fun _ _ => some true) "carol" "x" soloUsers).1,
   (C10_err_null_and_reject (fun _ _ => some true) "carol" "x" soloUsers).2.1
     (by decide),
   (C10_err_null_and_reject (fun _ _ => none) "bob" "x" soloUsers).2.2
     { username := "bob", password := "pw", roles := "admin" } (by decide) (by decide),
   (C10_err_null_and_reject (fun _ _ => some false) "bob" "x" soloUsers).2.2
     { username := "bob", password := "pw", roles := "admin" } (by decide) (by decide)⟩

end SampleServer
